import Mathlib

/-!
Shallow embedding of the bit-banged NAND-flash driver (`nand_driver.py`,
class `MT29F8G08ADADA`) and of the erase retry loop of `program_nand.py`.

Pure data (addresses, payloads, status bytes) is modelled with `Nat` and
`List Nat`; each driver operation is a pure function returning an
`Except NandError` result together with the list of bus events (commands,
address cycles, data strobes) it issues, and — where the operation mutates
the bad-block table — the updated table.  The chip's responses (status
bytes, sensed data, ready-line timeout) are oracle parameters.

Python bit operations on nonnegative ints are `Nat` bit operations:
`x & m` is `x &&& m`, `x >> k` is `x >>> k`, `x << k` is `x <<< k`,
`x | y` is `x ||| y`.
-/

namespace NandWork

/-- Constant `MT29F8G08ADADA.PAGE_SIZE`. -/
def PAGE_SIZE : Nat := 2048

/-- Constant `MT29F8G08ADADA.SPARE_SIZE`. -/
def SPARE_SIZE : Nat := 64

/-- Constant `MT29F8G08ADADA.PAGES_PER_BLOCK`. -/
def PAGES_PER_BLOCK : Nat := 64

/-- Constant `MT29F8G08ADADA.TOTAL_BLOCKS`. -/
def TOTAL_BLOCKS : Nat := 4096

/-- One observable event on the NAND bus: a command byte latched with CLE
(`write_command`), an address byte latched with ALE, a data byte strobed
out to the chip, a data byte strobed in from the chip, or a wait on the
ready/busy line. -/
inductive BusEvent where
  | cmd (b : Nat)
  | addr (b : Nat)
  | dataOut (b : Nat)
  | dataIn (b : Nat)
  | waitReady
deriving DecidableEq, Repr

/-- The distinct failure sites of the driver.  In the Python source every
failure is a `ValueError`/`RuntimeError` with a distinguishing message;
each constructor corresponds to one raise site / message. -/
inductive NandError where
  /-- Rejection by `validate_page`. -/
  | invalidPage (p : Nat)
  /-- Rejection by `validate_block`. -/
  | invalidBlock (b : Nat)
  /-- Rejection of an access to a block in the bad-block table. -/
  | badBlockAccess (b : Nat)
  /-- data-size rejection in `write_page` / `write_full_page` /
  `validate_data_size`. -/
  | payloadTooLarge (n : Nat)
  /-- Rejection of empty data by `validate_data_size`. -/
  | emptyPayload
  /-- two-plane rejection: both blocks on the same plane. -/
  | samePlane
  /-- two-plane rejection: page offsets differ. -/
  | pageOffsetMismatch
  /-- status-check failure (FAIL bit set) after an operation. -/
  | operationFailed
  /-- ready/busy line timeout. -/
  | timeout
deriving DecidableEq, Repr

deriving instance DecidableEq for Except

/-! ## Address codec (`_write_full_address`, `_write_row_address`)

The Python methods compute the address bytes and strobe them; here the
byte computation is the definition and the strobing is reflected by the
callers mapping `BusEvent.addr` over the result. -/

/-- The 5 address bytes assembled by `_write_full_address(page_no, col_addr)`:
two column cycles, then the three row cycles
`{BA7 BA6 PA5..PA0}`, `{BA15..BA8}`, `{BA17 BA16}`. -/
def writeFullAddressBytes (page_no : Nat) (col_addr : Nat := 0) : List Nat :=
  let page_in_block := page_no % PAGES_PER_BLOCK
  let block_no := page_no / PAGES_PER_BLOCK
  [ col_addr &&& 0xFF,
    (col_addr >>> 8) &&& 0x0F,
    (page_in_block &&& 0x3F) ||| ((block_no &&& 0x03) <<< 6),
    (block_no >>> 2) &&& 0xFF,
    (block_no >>> 10) &&& 0x03 ]

/-- The 3 row-address bytes assembled by `_write_row_address(page_no)`. -/
def writeRowAddressBytes (page_no : Nat) : List Nat :=
  let page_in_block := page_no % PAGES_PER_BLOCK
  let block_no := page_no / PAGES_PER_BLOCK
  [ (page_in_block &&& 0x3F) ||| ((block_no &&& 0x03) <<< 6),
    (block_no >>> 2) &&& 0xFF,
    (block_no >>> 10) &&& 0x03 ]

/-- Decoder for the 3-byte row address: recovers `(block, pageInBlock)`
from the three row cycles. -/
def decodeRowAddress : List Nat → Nat × Nat
  | [c3, c4, c5] => (c3 / 64 + c4 * 4 + c5 * 1024, c3 % 64)
  | _ => (0, 0)

/-- Decoder for the 5-byte full address: recovers
`(block, pageInBlock, column)` from the five cycles. -/
def decodeFullAddress : List Nat → Nat × Nat × Nat
  | [a0, a1, a2, a3, a4] => (a2 / 64 + a3 * 4 + a4 * 1024, a2 % 64, a0 + a1 * 256)
  | _ => (0, 0, 0)

/-- The plane bit tested by `erase_block_two_plane` / `read_page_two_plane`:
`(block_no >> 6) & 1`. -/
def planeBit (block_no : Nat) : Nat := (block_no >>> 6) &&& 1

/-! ### Arithmetic characterisations of the bitwise cycle formulas -/

theorem and_mask_eq_mod (x : Nat) : x &&& 0x3F = x % 64 := by
  have h := Nat.and_pow_two_sub_one_eq_mod x 6
  norm_num at h
  exact h

theorem and_mask3_eq_mod (x : Nat) : x &&& 0x03 = x % 4 := by
  have h := Nat.and_pow_two_sub_one_eq_mod x 2
  norm_num at h
  exact h

theorem and_maskFF_eq_mod (x : Nat) : x &&& 0xFF = x % 256 := by
  have h := Nat.and_pow_two_sub_one_eq_mod x 8
  norm_num at h
  exact h

theorem and_mask0F_eq_mod (x : Nat) : x &&& 0x0F = x % 16 := by
  have h := Nat.and_pow_two_sub_one_eq_mod x 4
  norm_num at h
  exact h

/-- The first row cycle `(pib & 0x3F) | ((blk & 0x03) << 6)` equals
`pib % 64 + (blk % 4) * 64`. -/
theorem rowCycle1_eq (pib blk : Nat) :
    ((pib &&& 0x3F) ||| ((blk &&& 0x03) <<< 6)) = pib % 64 + blk % 4 * 64 := by
  have hsh : (blk &&& 0x03) <<< 6 = blk % 4 * 64 := by
    rw [Nat.shiftLeft_eq, and_mask3_eq_mod]
  rw [hsh, and_mask_eq_mod, Nat.lor_comm]
  have h := Nat.mul_add_lt_is_or (b := pib % 64) (i := 6)
      (by have := Nat.mod_lt pib (y := 64) (by norm_num); omega) (blk % 4)
  have h64 : (2 : Nat) ^ 6 = 64 := by norm_num
  rw [h64] at h
  rw [Nat.mul_comm 64 (blk % 4)] at h
  omega

theorem rowBytes_eq (page_no : Nat) :
    writeRowAddressBytes page_no =
      [ page_no % 64 + page_no / 64 % 4 * 64,
        page_no / 64 / 4 % 256,
        page_no / 64 / 1024 % 4 ] := by
  simp only [writeRowAddressBytes, PAGES_PER_BLOCK]
  rw [rowCycle1_eq]
  simp only [Nat.shiftRight_eq_div_pow, and_maskFF_eq_mod, and_mask3_eq_mod]
  norm_num [Nat.mod_mod_of_dvd]

theorem fullBytes_eq (page_no col_addr : Nat) :
    writeFullAddressBytes page_no col_addr =
      [ col_addr % 256,
        col_addr / 256 % 16,
        page_no % 64 + page_no / 64 % 4 * 64,
        page_no / 64 / 4 % 256,
        page_no / 64 / 1024 % 4 ] := by
  simp only [writeFullAddressBytes, PAGES_PER_BLOCK]
  rw [rowCycle1_eq]
  simp only [Nat.shiftRight_eq_div_pow, and_maskFF_eq_mod, and_mask3_eq_mod,
    and_mask0F_eq_mod]
  norm_num [Nat.mod_mod_of_dvd]

/-- Row-address encode/decode round trip on the valid address space. -/
theorem decodeRow_writeRow (block pib : Nat) (hb : block < TOTAL_BLOCKS)
    (hp : pib < PAGES_PER_BLOCK) :
    decodeRowAddress (writeRowAddressBytes (block * PAGES_PER_BLOCK + pib)) = (block, pib) := by
  have hb' : block < 4096 := hb
  have hp' : pib < 64 := hp
  have h64 : PAGES_PER_BLOCK = 64 := rfl
  rw [h64, rowBytes_eq]
  simp only [decodeRowAddress, Prod.mk.injEq]
  omega

/-- Full-address encode/decode round trip on the valid address space. -/
theorem decodeFull_writeFull (block pib col : Nat) (hb : block < TOTAL_BLOCKS)
    (hp : pib < PAGES_PER_BLOCK) (hc : col < 4096) :
    decodeFullAddress (writeFullAddressBytes (block * PAGES_PER_BLOCK + pib) col) =
      (block, pib, col) := by
  have hb' : block < 4096 := hb
  have hp' : pib < 64 := hp
  have h64 : PAGES_PER_BLOCK = 64 := rfl
  rw [h64, fullBytes_eq]
  simp only [decodeFullAddress, Prod.mk.injEq]
  omega

/-! ## Status register reads

`check_operation_status` issues a `0x70` READ STATUS command and reads one
byte; it reports failure iff the FAIL bit (bit 0) of the status byte is
set.  `check_read_status` does the same and additionally classifies bit 3,
then issues a `0x00` command to return to read mode. -/

def check_operation_status (statusByte : Nat) : Bool :=
  decide (statusByte &&& 0x01 = 0)

def checkOperationStatusTrace (statusByte : Nat) : List BusEvent :=
  [.cmd 0x70, .dataIn statusByte]

/-- The three classifications returned by `check_read_status` (the `ERROR`
case, reachable only via a host-side GPIO exception, is not modelled). -/
inductive ReadStatus where
  | uncorrectableError
  | correctedWithRewriteRecommended
  | success
deriving DecidableEq, Repr

def check_read_status (statusByte : Nat) : ReadStatus :=
  if statusByte &&& 0x01 ≠ 0 then .uncorrectableError
  else if statusByte &&& 0x08 ≠ 0 then .correctedWithRewriteRecommended
  else .success

def checkReadStatusTrace (statusByte : Nat) : List BusEvent :=
  [.cmd 0x70, .dataIn statusByte, .cmd 0x00]

/-! ## Validation helpers and the bad-block table -/

/-- Function `validate_page` (the `isinstance` check is subsumed by the `Nat` type,
and `page_no < 0` is impossible for `Nat`). -/
def validate_page (page_no : Nat) : Bool :=
  decide (page_no < TOTAL_BLOCKS * PAGES_PER_BLOCK)

/-- Function `validate_block`. -/
def validate_block (block_no : Nat) : Bool :=
  decide (block_no < TOTAL_BLOCKS)

/-- Function `validate_data_size` (defined in the source; note that `write_page`
and `write_full_page` perform their own inline size checks instead of
calling it). -/
def validate_data_size (data : List Nat) : Except NandError Unit :=
  if data.length > PAGE_SIZE + SPARE_SIZE then .error (.payloadTooLarge data.length)
  else if data.length = 0 then .error .emptyPayload
  else .ok ()

/-- Function `is_bad_block`: membership in the `bad_blocks` set. -/
def is_bad_block (bad : Finset Nat) (block_no : Nat) : Bool :=
  decide (block_no ∈ bad)

/-- Function `mark_bad_block`: `bad_blocks.add(block_no)`. -/
def mark_bad_block (bad : Finset Nat) (block_no : Nat) : Finset Nat :=
  insert block_no bad

/-- Function `find_good_block`, with fuel `TOTAL_BLOCKS - start_block` bounding the
`while` loop. -/
def find_good_block (bad : Finset Nat) (start_block : Nat) : Option Nat :=
  (List.range TOTAL_BLOCKS).find? fun b =>
    start_block ≤ b && !is_bad_block bad b

/-! ## Driver operations

Each operation takes the current bad-block table and the chip-response
oracles it consumes, and returns its result, the bus trace it issued, and
(for the mutating operations) the updated bad-block table. -/

/-- Operation `erase_block(page_no)`.  `statusByte` is the chip's status register
value read by the post-erase `check_operation_status`. -/
def erase_block (bad : Finset Nat) (statusByte : Nat) (page_no : Nat) :
    Except NandError Unit × List BusEvent × Finset Nat :=
  if validate_page page_no = false then (.error (.invalidPage page_no), [], bad)
  else
    let block_no := page_no / PAGES_PER_BLOCK
    if validate_block block_no = false then (.error (.invalidBlock block_no), [], bad)
    else if is_bad_block bad block_no then (.error (.badBlockAccess block_no), [], bad)
    else
      let trace := [BusEvent.cmd 0x60] ++ (writeRowAddressBytes page_no).map .addr
        ++ [.cmd 0xD0, .waitReady] ++ checkOperationStatusTrace statusByte
      if check_operation_status statusByte then (.ok (), trace, bad)
      else (.error .operationFailed, trace, mark_bad_block bad block_no)

/-- Operation `write_page(page_no, data)`.  Note the inline size check is against
`PAGE_SIZE` (2048), and padding is with `0xFF` up to `PAGE_SIZE` only. -/
def write_page (bad : Finset Nat) (statusByte : Nat) (page_no : Nat) (data : List Nat) :
    Except NandError Unit × List BusEvent × Finset Nat :=
  if data.length > PAGE_SIZE then (.error (.payloadTooLarge data.length), [], bad)
  else
    let padded := data ++ List.replicate (PAGE_SIZE - data.length) 0xFF
    if validate_page page_no = false then (.error (.invalidPage page_no), [], bad)
    else
      let block_no := page_no / PAGES_PER_BLOCK
      if is_bad_block bad block_no then (.error (.badBlockAccess block_no), [], bad)
      else
        let trace := [BusEvent.cmd 0x80] ++ (writeFullAddressBytes page_no 0).map .addr
          ++ padded.map .dataOut ++ [.cmd 0x10, .waitReady]
          ++ checkOperationStatusTrace statusByte
        if check_operation_status statusByte then (.ok (), trace, bad)
        else (.error .operationFailed, trace, mark_bad_block bad block_no)

/-- Operation `write_full_page(page_no, data)`: size check and `0xFF` padding are
against `PAGE_SIZE + SPARE_SIZE` (2112); on a status failure the
`mark_bad_block` call is commented out in the source, so the table is
unchanged. -/
def write_full_page (bad : Finset Nat) (statusByte : Nat) (page_no : Nat) (data : List Nat) :
    Except NandError Unit × List BusEvent × Finset Nat :=
  if data.length > PAGE_SIZE + SPARE_SIZE then (.error (.payloadTooLarge data.length), [], bad)
  else
    let padded := data ++ List.replicate (PAGE_SIZE + SPARE_SIZE - data.length) 0xFF
    if validate_page page_no = false then (.error (.invalidPage page_no), [], bad)
    else
      let block_no := page_no / PAGES_PER_BLOCK
      if is_bad_block bad block_no then (.error (.badBlockAccess block_no), [], bad)
      else
        let trace := [BusEvent.cmd 0x80] ++ (writeFullAddressBytes page_no 0).map .addr
          ++ padded.map .dataOut ++ [.cmd 0x10, .waitReady]
          ++ checkOperationStatusTrace statusByte
        if check_operation_status statusByte then (.ok (), trace, bad)
        else (.error .operationFailed, trace, bad)

/-- Operation `read_page(page_no, length)`.  `sense i` is the byte the chip streams
out for offset `i` on a successful read.  Reads never modify the
bad-block table. -/
def read_page (bad : Finset Nat) (statusByte : Nat) (sense : Nat → Nat) (page_no : Nat)
    (length : Nat) : Except NandError (List Nat) × List BusEvent :=
  if validate_page page_no = false then (.error (.invalidPage page_no), [])
  else if is_bad_block bad (page_no / PAGES_PER_BLOCK) then
    (.error (.badBlockAccess (page_no / PAGES_PER_BLOCK)), [])
  else
    let pre := [BusEvent.cmd 0x00] ++ (writeFullAddressBytes page_no 0).map .addr
      ++ [.cmd 0x30, .waitReady] ++ checkReadStatusTrace statusByte
    if check_read_status statusByte = .uncorrectableError then
      (.ok (List.replicate length 0xFF), pre)
    else
      let bytes := (List.range length).map sense
      (.ok bytes, pre ++ bytes.map .dataIn)

/-- Operation `read_page_two_plane(page_no1, page_no2, length)`.  `status1`/`sense1`
answer the plane of `page_no1`, `status2`/`sense2` the plane of
`page_no2` (plane 2 is status-checked and streamed first).  The source's
bad-block message names both blocks; the error here records the first. -/
def read_page_two_plane (bad : Finset Nat) (status1 status2 : Nat)
    (sense1 sense2 : Nat → Nat) (page_no1 page_no2 : Nat) (length : Nat) :
    Except NandError (List Nat × List Nat) × List BusEvent :=
  if validate_page page_no1 = false then (.error (.invalidPage page_no1), [])
  else if validate_page page_no2 = false then (.error (.invalidPage page_no2), [])
  else
    let block_no1 := page_no1 / PAGES_PER_BLOCK
    let block_no2 := page_no2 / PAGES_PER_BLOCK
    if planeBit block_no1 = planeBit block_no2 then (.error .samePlane, [])
    else if page_no1 % PAGES_PER_BLOCK ≠ page_no2 % PAGES_PER_BLOCK then
      (.error .pageOffsetMismatch, [])
    else if is_bad_block bad block_no1 || is_bad_block bad block_no2 then
      (.error (.badBlockAccess block_no1), [])
    else
      let pre := [BusEvent.cmd 0x00] ++ (writeFullAddressBytes page_no1 0).map .addr
        ++ [.cmd 0x00] ++ (writeFullAddressBytes page_no2 0).map .addr
        ++ [.cmd 0x30, .waitReady] ++ checkReadStatusTrace status2
      let plane2 :=
        if check_read_status status2 = .uncorrectableError then
          (List.replicate length 0xFF, ([] : List BusEvent))
        else
          let b := (List.range length).map sense2
          (b, b.map BusEvent.dataIn)
      let mid := [BusEvent.cmd 0x06] ++ (writeFullAddressBytes page_no1 0).map .addr
        ++ [.cmd 0xE0] ++ checkReadStatusTrace status1
      let plane1 :=
        if check_read_status status1 = .uncorrectableError then
          (List.replicate length 0xFF, ([] : List BusEvent))
        else
          let b := (List.range length).map sense1
          (b, b.map BusEvent.dataIn)
      (.ok (plane1.1, plane2.1), pre ++ plane2.2 ++ mid ++ plane1.2)

/-- Operation `erase_block_two_plane(page_no1, page_no2)`.  `timedOut` models the
ready/busy line never going high within the 20 ms budget (in which case a
`0xFF` RESET command is issued before failing).  Note the source performs
no bad-block check and never modifies the table here. -/
def erase_block_two_plane (statusByte : Nat) (timedOut : Bool)
    (page_no1 page_no2 : Nat) : Except NandError Unit × List BusEvent :=
  if validate_page page_no1 = false then (.error (.invalidPage page_no1), [])
  else if validate_page page_no2 = false then (.error (.invalidPage page_no2), [])
  else
    let block_no1 := page_no1 / PAGES_PER_BLOCK
    let block_no2 := page_no2 / PAGES_PER_BLOCK
    if validate_block block_no1 = false then (.error (.invalidBlock block_no1), [])
    else if validate_block block_no2 = false then (.error (.invalidBlock block_no2), [])
    else if planeBit block_no1 = planeBit block_no2 then (.error .samePlane, [])
    else if page_no1 % PAGES_PER_BLOCK ≠ page_no2 % PAGES_PER_BLOCK then
      (.error .pageOffsetMismatch, [])
    else
      let pre := [BusEvent.cmd 0x60] ++ (writeRowAddressBytes page_no1).map .addr
        ++ [.cmd 0xD1, .cmd 0x60] ++ (writeRowAddressBytes page_no2).map .addr
        ++ [.cmd 0xD0]
      if timedOut then (.error .timeout, pre ++ [.cmd 0xFF, .waitReady])
      else if check_operation_status statusByte then
        (.ok (), pre ++ [.waitReady] ++ checkOperationStatusTrace statusByte)
      else
        (.error .operationFailed, pre ++ [.waitReady] ++ checkOperationStatusTrace statusByte)

/-- Spare-area column of the factory bad-block marker
(`BAD_BLOCK_MARKER_ADDR` in `scan_bad_blocks`). -/
def BAD_BLOCK_MARKER_ADDR : Nat := 2048

/-- Operation `scan_bad_blocks`.  `readByte page col` abstracts the one-byte read of
column `col` of page `page` during the scan; `none` models an exception
raised while scanning that block (the source then treats the block as
bad).  `bad` is the table before the scan; the source starts with
`self.bad_blocks = set()`, so the accumulator below starts from `∅` and
`bad` is discarded. -/
def scanStep (readByte : Nat → Nat → Option Nat) (acc : Finset Nat) (block : Nat) :
    Finset Nat :=
  match readByte (block * PAGES_PER_BLOCK) BAD_BLOCK_MARKER_ADDR with
  | some marker => if marker = 0x00 then insert block acc else acc
  | none => insert block acc

def scan_bad_blocks (readByte : Nat → Nat → Option Nat) (bad : Finset Nat) : Finset Nat :=
  (List.range TOTAL_BLOCKS).foldl (scanStep readByte) (∅ : Finset Nat)

/-- The per-block erase retry loop of `program_nand.erase_all_blocks`:
`for retry in range(MAX_RETRIES)` attempts `erase_block`, stopping at the
first success; the exception of the last attempt is the one recorded and
surfaced.  `fuel` is the number of attempts remaining (the source uses
`MAX_RETRIES = 5`); with fuel `0` the loop body never runs and nothing is
recorded, modelled as a no-op success. -/
def erase_block_with_retries (bad : Finset Nat) (statusByte page_no : Nat) :
    Nat → Except NandError Unit × Finset Nat
  | 0 => (.ok (), bad)
  | Nat.succ n =>
    match erase_block bad statusByte page_no with
    | (.ok _, _, bad') => (.ok (), bad')
    | (.error e, _, bad') =>
      match n with
      | 0 => (.error e, bad')
      | Nat.succ m => erase_block_with_retries bad' statusByte page_no (Nat.succ m)

/-- The data bytes strobed out to the chip, in order, within a trace. -/
def dataOutBytes (trace : List BusEvent) : List Nat :=
  trace.filterMap fun e =>
    match e with
    | .dataOut b => some b
    | _ => none

/-! ## Helper lemmas -/

theorem planeBit_eq (b : Nat) : planeBit b = b / 64 % 2 := by
  rw [planeBit, Nat.shiftRight_eq_div_pow, Nat.and_one_is_mod]

/-- The factory-bad condition that `scan_bad_blocks` tests for one block:
its marker byte reads `0x00`, or the scan of the block raised. -/
def isFactoryBad (readByte : Nat → Nat → Option Nat) (block : Nat) : Prop :=
  readByte (block * PAGES_PER_BLOCK) BAD_BLOCK_MARKER_ADDR = some 0x00 ∨
  readByte (block * PAGES_PER_BLOCK) BAD_BLOCK_MARKER_ADDR = none

theorem mem_scanStep (readByte : Nat → Nat → Option Nat) (acc : Finset Nat) (x b : Nat) :
    b ∈ scanStep readByte acc x ↔ (b = x ∧ isFactoryBad readByte x) ∨ b ∈ acc := by
  rcases hx : readByte (x * PAGES_PER_BLOCK) BAD_BLOCK_MARKER_ADDR with _ | m
  · simp [scanStep, hx, isFactoryBad]
  · by_cases hm : m = 0x00
    · subst hm
      simp [scanStep, hx, isFactoryBad]
    · simp [scanStep, hx, hm, isFactoryBad]

theorem mem_scanStep_foldl (readByte : Nat → Nat → Option Nat) (l : List Nat)
    (acc : Finset Nat) (b : Nat) :
    b ∈ l.foldl (scanStep readByte) acc ↔
      b ∈ acc ∨ (b ∈ l ∧ isFactoryBad readByte b) := by
  induction l generalizing acc with
  | nil => simp
  | cons x l ih =>
    rw [List.foldl_cons, ih, mem_scanStep]
    simp only [List.mem_cons]
    constructor
    · rintro ((⟨rfl, hc⟩ | h) | ⟨h, hc⟩)
      · exact Or.inr ⟨Or.inl rfl, hc⟩
      · exact Or.inl h
      · exact Or.inr ⟨Or.inr h, hc⟩
    · rintro (h | ⟨rfl | h, hc⟩)
      · exact Or.inl (Or.inr h)
      · exact Or.inl (Or.inl ⟨rfl, hc⟩)
      · exact Or.inr ⟨h, hc⟩

theorem validate_page_true (p : Nat) (h : p < TOTAL_BLOCKS * PAGES_PER_BLOCK) :
    ¬ (validate_page p = false) := by
  simp [validate_page, h]

theorem validate_block_true (b : Nat) (h : b < TOTAL_BLOCKS) :
    ¬ (validate_block b = false) := by
  simp [validate_block, h]

theorem check_read_status_of_fail (s : Nat) (h : s &&& 0x01 ≠ 0) :
    check_read_status s = .uncorrectableError := by
  rw [Nat.and_one_is_mod] at h
  simp [check_read_status, Nat.and_one_is_mod, h]

theorem check_operation_status_of_fail (s : Nat) (h : s &&& 0x01 ≠ 0) :
    check_operation_status s = false := by
  rw [Nat.and_one_is_mod] at h
  simp only [check_operation_status, Nat.and_one_is_mod, decide_eq_false_iff_not]
  exact h

theorem dataOutBytes_append (t1 t2 : List BusEvent) :
    dataOutBytes (t1 ++ t2) = dataOutBytes t1 ++ dataOutBytes t2 := by
  simp [dataOutBytes]

theorem dataOutBytes_map_addr (l : List Nat) :
    dataOutBytes (l.map BusEvent.addr) = [] := by
  induction l <;> simp_all [dataOutBytes]

theorem dataOutBytes_map_dataOut (l : List Nat) :
    dataOutBytes (l.map BusEvent.dataOut) = l := by
  induction l <;> simp_all [dataOutBytes]

/-- On the happy path through the size/validity/bad-block checks, the data
bytes `write_page` strobes out are the payload padded with `0xFF` to
`PAGE_SIZE` (2048) — not to `PAGE_SIZE + SPARE_SIZE`. -/
theorem dataOutBytes_write_page (bad : Finset Nat) (s page_no : Nat) (data : List Nat)
    (hd : data.length ≤ PAGE_SIZE)
    (hp : page_no < TOTAL_BLOCKS * PAGES_PER_BLOCK)
    (hb : is_bad_block bad (page_no / PAGES_PER_BLOCK) = false) :
    dataOutBytes (write_page bad s page_no data).2.1 =
      data ++ List.replicate (PAGE_SIZE - data.length) 0xFF := by
  simp only [write_page]
  rw [if_neg (by omega), if_neg (validate_page_true page_no hp), if_neg (by simp [hb])]
  by_cases hs : check_operation_status s
  · rw [if_pos hs]
    simp only [dataOutBytes_append, dataOutBytes_map_addr, dataOutBytes_map_dataOut,
      checkOperationStatusTrace]
    simp [dataOutBytes]
  · rw [if_neg hs]
    simp only [dataOutBytes_append, dataOutBytes_map_addr, dataOutBytes_map_dataOut,
      checkOperationStatusTrace]
    simp [dataOutBytes]

/-- Same for `write_full_page`, with padding to `PAGE_SIZE + SPARE_SIZE`. -/
theorem dataOutBytes_write_full_page (bad : Finset Nat) (s page_no : Nat) (data : List Nat)
    (hd : data.length ≤ PAGE_SIZE + SPARE_SIZE)
    (hp : page_no < TOTAL_BLOCKS * PAGES_PER_BLOCK)
    (hb : is_bad_block bad (page_no / PAGES_PER_BLOCK) = false) :
    dataOutBytes (write_full_page bad s page_no data).2.1 =
      data ++ List.replicate (PAGE_SIZE + SPARE_SIZE - data.length) 0xFF := by
  simp only [write_full_page]
  rw [if_neg (by omega), if_neg (validate_page_true page_no hp), if_neg (by simp [hb])]
  by_cases hs : check_operation_status s
  · rw [if_pos hs]
    simp only [dataOutBytes_append, dataOutBytes_map_addr, dataOutBytes_map_dataOut,
      checkOperationStatusTrace]
    simp [dataOutBytes]
  · rw [if_neg hs]
    simp only [dataOutBytes_append, dataOutBytes_map_addr, dataOutBytes_map_dataOut,
      checkOperationStatusTrace]
    simp [dataOutBytes]

/-- One failing `erase_block` on a good block: error `operationFailed`,
bus trace issued, and the block promoted into the table. -/
theorem erase_block_fail (bad : Finset Nat) (s b : Nat) (hb : b < TOTAL_BLOCKS)
    (hnb : is_bad_block bad b = false) (hs : s &&& 0x01 ≠ 0) :
    erase_block bad s (b * PAGES_PER_BLOCK) =
      (.error .operationFailed,
        [BusEvent.cmd 0x60] ++ (writeRowAddressBytes (b * PAGES_PER_BLOCK)).map .addr
          ++ [.cmd 0xD0, .waitReady] ++ checkOperationStatusTrace s,
        mark_bad_block bad b) := by
  have hp : b * PAGES_PER_BLOCK < TOTAL_BLOCKS * PAGES_PER_BLOCK := by
    have hb' : b < 4096 := hb
    have h : b * 64 < 4096 * 64 := by omega
    exact h
  simp only [erase_block]
  rw [Nat.mul_div_cancel _ (by decide : 0 < PAGES_PER_BLOCK)]
  rw [if_neg (validate_page_true _ hp), if_neg (validate_block_true _ hb),
    if_neg (by simp [hnb]), if_neg (by simp [check_operation_status_of_fail s hs])]

/-- Once the block is in the table, every retry round fails immediately
with the bad-block-access error and leaves the table unchanged. -/
theorem retries_bad_block (bad : Finset Nat) (s b : Nat) (hb : b < TOTAL_BLOCKS)
    (hmem : is_bad_block bad b = true) :
    ∀ n, erase_block_with_retries bad s (b * PAGES_PER_BLOCK) (n + 1) =
      (.error (.badBlockAccess b), bad) := by
  have hp : b * PAGES_PER_BLOCK < TOTAL_BLOCKS * PAGES_PER_BLOCK := by
    have hb' : b < 4096 := hb
    have h : b * 64 < 4096 * 64 := by omega
    exact h
  have hstep : erase_block bad s (b * PAGES_PER_BLOCK) =
      (.error (.badBlockAccess b), [], bad) := by
    simp only [erase_block]
    rw [Nat.mul_div_cancel _ (by decide : 0 < PAGES_PER_BLOCK)]
    rw [if_neg (validate_page_true _ hp), if_neg (validate_block_true _ hb), if_pos hmem]
  intro n
  induction n with
  | zero =>
    show erase_block_with_retries bad s (b * PAGES_PER_BLOCK) (Nat.succ 0) = _
    rw [erase_block_with_retries.eq_2, hstep]
  | succ m ih =>
    show erase_block_with_retries bad s (b * PAGES_PER_BLOCK) (Nat.succ (Nat.succ m)) = _
    rw [erase_block_with_retries.eq_2, hstep]
    exact ih

/-! ## Claim theorems -/

/-- C3: for the geometry `pagesPerBlock = 64`, `totalBlocks = 4096`, both
the 5-byte full-address encoding and the 3-byte row-address encoding are
injective over valid `(block, pageInBlock, column)` triples (the triple is
recoverable via the explicit decoders), and the row address of page index
4159 (block 64, page-in-block 63) decodes back to `(64, 63)`. -/
theorem C3_address_codec_injective :
    (∀ b1 p1 c1 b2 p2 c2, b1 < TOTAL_BLOCKS → p1 < PAGES_PER_BLOCK → c1 < 4096 →
      b2 < TOTAL_BLOCKS → p2 < PAGES_PER_BLOCK → c2 < 4096 →
      writeFullAddressBytes (b1 * PAGES_PER_BLOCK + p1) c1 =
        writeFullAddressBytes (b2 * PAGES_PER_BLOCK + p2) c2 →
      b1 = b2 ∧ p1 = p2 ∧ c1 = c2) ∧
    (∀ b1 p1 b2 p2, b1 < TOTAL_BLOCKS → p1 < PAGES_PER_BLOCK →
      b2 < TOTAL_BLOCKS → p2 < PAGES_PER_BLOCK →
      writeRowAddressBytes (b1 * PAGES_PER_BLOCK + p1) =
        writeRowAddressBytes (b2 * PAGES_PER_BLOCK + p2) →
      b1 = b2 ∧ p1 = p2) ∧
    4159 = 64 * PAGES_PER_BLOCK + 63 ∧
    decodeRowAddress (writeRowAddressBytes 4159) = (64, 63) := by
  refine ⟨?_, ?_, by decide, by decide⟩
  · intro b1 p1 c1 b2 p2 c2 hb1 hp1 hc1 hb2 hp2 hc2 h
    have h' := congrArg decodeFullAddress h
    rw [decodeFull_writeFull b1 p1 c1 hb1 hp1 hc1,
      decodeFull_writeFull b2 p2 c2 hb2 hp2 hc2] at h'
    simpa using h'
  · intro b1 p1 b2 p2 hb1 hp1 hb2 hp2 h
    have h' := congrArg decodeRowAddress h
    rw [decodeRow_writeRow b1 p1 hb1 hp1, decodeRow_writeRow b2 p2 hb2 hp2] at h'
    simpa using h'

/-- C3 witness: the injectivity parts applied at a concrete triple. -/
theorem C3_address_codec_injective_witness :
    (64 = 64 ∧ 63 = 63 ∧ 100 = 100) ∧ (7 = 7 ∧ 5 = 5) :=
  ⟨C3_address_codec_injective.1 64 63 100 64 63 100 (by decide) (by decide) (by decide)
      (by decide) (by decide) (by decide) rfl,
    C3_address_codec_injective.2.1 7 5 7 5 (by decide) (by decide) (by decide) (by decide) rfl⟩

/-- C4 counterexample: blocks 0 and 64 have differing plane bits as tested
by the two-plane operations (`(block >> 6) & 1`), yet the top 2 bits of
the first row address cycle of their first pages are equal — the claimed
layout (plane-select bits in the top 2 bits of the first row cycle,
consistent with plane membership being bit 6 of the block index) is false
on the code. -/
theorem C4_plane_bits_cex :
    planeBit 0 ≠ planeBit 64 ∧
    (writeRowAddressBytes (0 * PAGES_PER_BLOCK)).headI / 64 =
      (writeRowAddressBytes (64 * PAGES_PER_BLOCK)).headI / 64 := by
  decide

/-- C4 amended: the top 2 bits of the first row cycle hold the LOW two
bits of the block index; the plane bit tested by the two-plane operations
(bit 6 of the block index) lands in bit 4 of the SECOND row cycle, so two
blocks whose bit-6 plane bits differ differ there. -/
theorem C4_plane_bits_amended (b1 b2 pib : Nat) (hp : pib < PAGES_PER_BLOCK)
    (hne : planeBit b1 ≠ planeBit b2) :
    (writeRowAddressBytes (b1 * PAGES_PER_BLOCK + pib)).headI / 64 = b1 % 4 ∧
    (writeRowAddressBytes (b1 * PAGES_PER_BLOCK + pib)).getD 1 0 / 16 % 2 ≠
      (writeRowAddressBytes (b2 * PAGES_PER_BLOCK + pib)).getD 1 0 / 16 % 2 := by
  have hp' : pib < 64 := hp
  have h64 : PAGES_PER_BLOCK = 64 := rfl
  rw [planeBit_eq, planeBit_eq] at hne
  rw [h64, rowBytes_eq, rowBytes_eq]
  simp only [List.headI, List.getD, List.get?_cons_succ, List.get?_cons_zero,
    List.getElem?_cons_succ, List.getElem?_cons_zero, Option.getD_some]
  constructor
  · omega
  · omega

/-- C4 witness: the amended layout facts at blocks 0 and 64,
page-in-block 0. -/
theorem C4_plane_bits_amended_witness :
    (writeRowAddressBytes (0 * PAGES_PER_BLOCK + 0)).headI / 64 = 0 % 4 ∧
    (writeRowAddressBytes (0 * PAGES_PER_BLOCK + 0)).getD 1 0 / 16 % 2 ≠
      (writeRowAddressBytes (64 * PAGES_PER_BLOCK + 0)).getD 1 0 / 16 % 2 :=
  C4_plane_bits_amended 0 64 0 (by decide) (by decide)

/-- C9 (implicit): `read_page` on a page whose block is in the bad-block
table fails with the bad-block-access error before issuing any bus
command (in particular the `0x00` read-setup command is never sent). -/
theorem C9_read_page_refuses_bad_block (bad : Finset Nat) (statusByte : Nat)
    (sense : Nat → Nat) (page_no len : Nat)
    (hp : page_no < TOTAL_BLOCKS * PAGES_PER_BLOCK)
    (hb : is_bad_block bad (page_no / PAGES_PER_BLOCK) = true) :
    (read_page bad statusByte sense page_no len).1 =
      .error (.badBlockAccess (page_no / PAGES_PER_BLOCK)) ∧
    (read_page bad statusByte sense page_no len).2 = [] := by
  unfold read_page
  rw [if_neg (by simp [validate_page, hp]), if_pos hb]
  exact ⟨rfl, rfl⟩

/-- C9 witness: block 3 bad, reading its page 2 is refused with no bus
activity. -/
theorem C9_read_page_refuses_bad_block_witness :
    (read_page ({3} : Finset Nat) 0 (fun _ => 0) (3 * 64 + 2) 2048).1 =
      .error (.badBlockAccess ((3 * 64 + 2) / PAGES_PER_BLOCK)) ∧
    (read_page ({3} : Finset Nat) 0 (fun _ => 0) (3 * 64 + 2) 2048).2 = [] :=
  C9_read_page_refuses_bad_block ({3} : Finset Nat) 0 (fun _ => 0) (3 * 64 + 2) 2048
    (by decide) (by decide)

/-- C10 (implicit): `scan_bad_blocks` replaces the whole table: whatever
the pre-scan table `old` was, a block is in the resulting table iff it is
a valid block index whose spare-area marker byte (column 2048 of the
block's first page) read `0x00` or whose scan raised an exception; in
particular the result does not depend on `old` at all. -/
theorem C10_scan_replaces_table (readByte : Nat → Nat → Option Nat)
    (old other : Finset Nat) (b : Nat) :
    (b ∈ scan_bad_blocks readByte old ↔
      b < TOTAL_BLOCKS ∧
        (readByte (b * PAGES_PER_BLOCK) BAD_BLOCK_MARKER_ADDR = some 0x00 ∨
         readByte (b * PAGES_PER_BLOCK) BAD_BLOCK_MARKER_ADDR = none)) ∧
    scan_bad_blocks readByte old = scan_bad_blocks readByte other := by
  constructor
  · rw [scan_bad_blocks, mem_scanStep_foldl]
    simp [isFactoryBad, List.mem_range]
  · rfl

/-- C1: immediately after `mark_bad_block b`, `is_bad_block b` is true,
and any subsequent `erase_block` or `write_page` targeting a (valid) page
of block `b` — with a payload passing the size check — fails with the
bad-block-access error and an empty bus trace (no command, address or
data strobe issued). -/
theorem C1_mark_bad_block_gates_erase_write (bad : Finset Nat) (s1 s2 : Nat)
    (b pe pw : Nat) (data : List Nat)
    (hb : b < TOTAL_BLOCKS)
    (hpe : pe / PAGES_PER_BLOCK = b) (hpe2 : pe < TOTAL_BLOCKS * PAGES_PER_BLOCK)
    (hpw : pw / PAGES_PER_BLOCK = b) (hpw2 : pw < TOTAL_BLOCKS * PAGES_PER_BLOCK)
    (hd : data.length ≤ PAGE_SIZE) :
    is_bad_block (mark_bad_block bad b) b = true ∧
    (erase_block (mark_bad_block bad b) s1 pe).1 = .error (.badBlockAccess b) ∧
    (erase_block (mark_bad_block bad b) s1 pe).2.1 = [] ∧
    (write_page (mark_bad_block bad b) s2 pw data).1 = .error (.badBlockAccess b) ∧
    (write_page (mark_bad_block bad b) s2 pw data).2.1 = [] := by
  have hm : is_bad_block (mark_bad_block bad b) b = true := by
    simp [is_bad_block, mark_bad_block]
  have he : erase_block (mark_bad_block bad b) s1 pe =
      (.error (.badBlockAccess b), [], mark_bad_block bad b) := by
    simp only [erase_block]
    rw [hpe, if_neg (validate_page_true pe hpe2), if_neg (validate_block_true b hb),
      if_pos hm]
  have hw : write_page (mark_bad_block bad b) s2 pw data =
      (.error (.badBlockAccess b), [], mark_bad_block bad b) := by
    simp only [write_page]
    rw [hpw, if_neg (by omega), if_neg (validate_page_true pw hpw2), if_pos hm]
  exact ⟨hm, by rw [he], by rw [he], by rw [hw], by rw [hw]⟩

/-- C1 witness: block 5 marked bad; erasing its page 3 and programming its
page 4 are both refused with no bus activity. -/
theorem C1_mark_bad_block_gates_erase_write_witness :
    is_bad_block (mark_bad_block ∅ 5) 5 = true ∧
    (erase_block (mark_bad_block ∅ 5) 0 (5 * 64 + 3)).1 = .error (.badBlockAccess 5) ∧
    (erase_block (mark_bad_block ∅ 5) 0 (5 * 64 + 3)).2.1 = [] ∧
    (write_page (mark_bad_block ∅ 5) 0 (5 * 64 + 4) [0x12]).1 =
      .error (.badBlockAccess 5) ∧
    (write_page (mark_bad_block ∅ 5) 0 (5 * 64 + 4) [0x12]).2.1 = [] :=
  C1_mark_bad_block_gates_erase_write ∅ 0 0 5 (5 * 64 + 3) (5 * 64 + 4) [0x12]
    (by decide) (by decide) (by decide) (by decide) (by decide) (by decide)

/-- C2: for valid page addresses, `erase_block_two_plane` and
`read_page_two_plane` issue bus activity only if the plane bits (bit 6 of
each block index) differ and the page-in-block offsets agree; if the
plane bits agree or the offsets differ, the call is rejected with an
error and an empty bus trace. -/
theorem C2_two_plane_preconditions (statusByte : Nat) (timedOut : Bool)
    (bad : Finset Nat) (s1 s2 : Nat) (f1 f2 : Nat → Nat) (p1 p2 len : Nat)
    (h1 : p1 < TOTAL_BLOCKS * PAGES_PER_BLOCK)
    (h2 : p2 < TOTAL_BLOCKS * PAGES_PER_BLOCK) :
    ((erase_block_two_plane statusByte timedOut p1 p2).2 ≠ [] →
      planeBit (p1 / PAGES_PER_BLOCK) ≠ planeBit (p2 / PAGES_PER_BLOCK) ∧
      p1 % PAGES_PER_BLOCK = p2 % PAGES_PER_BLOCK) ∧
    ((read_page_two_plane bad s1 s2 f1 f2 p1 p2 len).2 ≠ [] →
      planeBit (p1 / PAGES_PER_BLOCK) ≠ planeBit (p2 / PAGES_PER_BLOCK) ∧
      p1 % PAGES_PER_BLOCK = p2 % PAGES_PER_BLOCK) ∧
    (planeBit (p1 / PAGES_PER_BLOCK) = planeBit (p2 / PAGES_PER_BLOCK) ∨
        p1 % PAGES_PER_BLOCK ≠ p2 % PAGES_PER_BLOCK →
      (∃ e, (erase_block_two_plane statusByte timedOut p1 p2).1 = .error e) ∧
      (erase_block_two_plane statusByte timedOut p1 p2).2 = [] ∧
      (∃ e, (read_page_two_plane bad s1 s2 f1 f2 p1 p2 len).1 = .error e) ∧
      (read_page_two_plane bad s1 s2 f1 f2 p1 p2 len).2 = []) := by
  have hv1 := validate_page_true p1 h1
  have hv2 := validate_page_true p2 h2
  have hb1 : ¬ (validate_block (p1 / PAGES_PER_BLOCK) = false) := by
    refine validate_block_true _ ?_
    have h1' : p1 < 262144 := h1
    show p1 / 64 < 4096
    omega
  have hb2 : ¬ (validate_block (p2 / PAGES_PER_BLOCK) = false) := by
    refine validate_block_true _ ?_
    have h2' : p2 < 262144 := h2
    show p2 / 64 < 4096
    omega
  by_cases hpl : planeBit (p1 / PAGES_PER_BLOCK) = planeBit (p2 / PAGES_PER_BLOCK)
  · have he : erase_block_two_plane statusByte timedOut p1 p2 = (.error .samePlane, []) := by
      simp only [erase_block_two_plane]
      rw [if_neg hv1, if_neg hv2, if_neg hb1, if_neg hb2, if_pos hpl]
    have hr : read_page_two_plane bad s1 s2 f1 f2 p1 p2 len = (.error .samePlane, []) := by
      simp only [read_page_two_plane]
      rw [if_neg hv1, if_neg hv2, if_pos hpl]
    refine ⟨?_, ?_, ?_⟩
    · rw [he]; intro h; exact absurd rfl h
    · rw [hr]; intro h; exact absurd rfl h
    · intro _; rw [he, hr]; exact ⟨⟨_, rfl⟩, rfl, ⟨_, rfl⟩, rfl⟩
  · by_cases hoff : p1 % PAGES_PER_BLOCK = p2 % PAGES_PER_BLOCK
    · refine ⟨fun _ => ⟨hpl, hoff⟩, fun _ => ⟨hpl, hoff⟩, ?_⟩
      rintro (h | h)
      · exact absurd h hpl
      · exact absurd hoff h
    · have he : erase_block_two_plane statusByte timedOut p1 p2 =
          (.error .pageOffsetMismatch, []) := by
        simp only [erase_block_two_plane]
        rw [if_neg hv1, if_neg hv2, if_neg hb1, if_neg hb2, if_neg hpl, if_pos hoff]
      have hr : read_page_two_plane bad s1 s2 f1 f2 p1 p2 len =
          (.error .pageOffsetMismatch, []) := by
        simp only [read_page_two_plane]
        rw [if_neg hv1, if_neg hv2, if_neg hpl, if_pos hoff]
      refine ⟨?_, ?_, ?_⟩
      · rw [he]; intro h; exact absurd rfl h
      · rw [hr]; intro h; exact absurd rfl h
      · intro _; rw [he, hr]; exact ⟨⟨_, rfl⟩, rfl, ⟨_, rfl⟩, rfl⟩

/-- C2 witness: blocks 1 and 2 share plane bit 0, so the two-plane erase
and read of their first pages are rejected with no bus activity. -/
theorem C2_two_plane_preconditions_witness :
    (∃ e, (erase_block_two_plane 0 false (1 * 64) (2 * 64)).1 = .error e) ∧
    (erase_block_two_plane 0 false (1 * 64) (2 * 64)).2 = [] ∧
    (∃ e, (read_page_two_plane ∅ 0 0 (fun _ => 0) (fun _ => 0) (1 * 64) (2 * 64) 4).1 =
      .error e) ∧
    (read_page_two_plane ∅ 0 0 (fun _ => 0) (fun _ => 0) (1 * 64) (2 * 64) 4).2 = [] :=
  (C2_two_plane_preconditions 0 false ∅ 0 0 (fun _ => 0) (fun _ => 0) (1 * 64) (2 * 64) 4
    (by decide) (by decide)).2.2 (Or.inl (by decide))

/-- C5 counterexample: a 2049-byte payload is within
`pageSize + spareSize = 2112`, yet `write_page` rejects it as too large
(its inline size check is against `PAGE_SIZE = 2048`, not 2112). -/
theorem C5_size_check_cex :
    (List.replicate 2049 (0 : Nat)).length ≤ PAGE_SIZE + SPARE_SIZE ∧
    (write_page (∅ : Finset Nat) 0 0 (List.replicate 2049 0)).1 =
      .error (.payloadTooLarge 2049) ∧
    (write_page (∅ : Finset Nat) 0 0 (List.replicate 2049 0)).2.1 = [] := by
  have h : write_page (∅ : Finset Nat) 0 0 (List.replicate 2049 0) =
      (.error (.payloadTooLarge 2049), [], (∅ : Finset Nat)) := by
    simp only [write_page, List.length_replicate]
    rw [if_pos (by norm_num [PAGE_SIZE])]
  exact ⟨by rw [List.length_replicate]; decide, by rw [h], by rw [h]⟩

/-- C5 amended: `write_full_page` rejects a payload, with a
payload-too-large error and no bus activity, iff it exceeds
`pageSize + spareSize = 2112`; `write_page` applies the same gate but at
`pageSize = 2048`. -/
theorem C5_size_check_amended (bad : Finset Nat) (s page_no : Nat) (data : List Nat) :
    (data.length > PAGE_SIZE + SPARE_SIZE →
      (write_full_page bad s page_no data).1 = .error (.payloadTooLarge data.length) ∧
      (write_full_page bad s page_no data).2.1 = []) ∧
    (data.length ≤ PAGE_SIZE + SPARE_SIZE →
      ∀ n, (write_full_page bad s page_no data).1 ≠ .error (.payloadTooLarge n)) ∧
    (data.length > PAGE_SIZE →
      (write_page bad s page_no data).1 = .error (.payloadTooLarge data.length) ∧
      (write_page bad s page_no data).2.1 = []) ∧
    (data.length ≤ PAGE_SIZE →
      ∀ n, (write_page bad s page_no data).1 ≠ .error (.payloadTooLarge n)) := by
  refine ⟨fun h => ?_, fun h n => ?_, fun h => ?_, fun h n => ?_⟩
  · simp only [write_full_page]
    rw [if_pos h]
    exact ⟨rfl, rfl⟩
  · simp only [write_full_page]
    rw [if_neg (by omega)]
    split_ifs <;> simp
  · simp only [write_page]
    rw [if_pos h]
    exact ⟨rfl, rfl⟩
  · simp only [write_page]
    rw [if_neg (by omega)]
    split_ifs <;> simp

/-- C5 witness: a 2050-byte payload is accepted by `write_full_page`'s
size check but rejected by `write_page`. -/
theorem C5_size_check_amended_witness :
    ((List.replicate 2050 (0 : Nat)).length ≤ PAGE_SIZE + SPARE_SIZE →
      ∀ n, (write_full_page ∅ 0 0 (List.replicate 2050 0)).1 ≠
        .error (.payloadTooLarge n)) ∧
    ((List.replicate 2050 (0 : Nat)).length > PAGE_SIZE →
      (write_page ∅ 0 0 (List.replicate 2050 0)).1 =
        .error (.payloadTooLarge (List.replicate 2050 (0 : Nat)).length) ∧
      (write_page ∅ 0 0 (List.replicate 2050 0)).2.1 = []) :=
  ⟨(C5_size_check_amended ∅ 0 0 (List.replicate 2050 0)).2.1,
    (C5_size_check_amended ∅ 0 0 (List.replicate 2050 0)).2.2.1⟩

/-- C6 counterexample: `write_page` of a 1-byte payload strobes exactly
2048 data bytes (payload padded with `0xFF` to `PAGE_SIZE`), not the
full page+spare size 2112 the claim states. -/
theorem C6_padding_cex :
    dataOutBytes (write_page (∅ : Finset Nat) 0 0 [0x12]).2.1 =
      [0x12] ++ List.replicate 2047 0xFF ∧
    (dataOutBytes (write_page (∅ : Finset Nat) 0 0 [0x12]).2.1).length ≠
      PAGE_SIZE + SPARE_SIZE := by
  have h := dataOutBytes_write_page ∅ 0 0 [0x12] (by norm_num [PAGE_SIZE])
    (by norm_num [TOTAL_BLOCKS, PAGES_PER_BLOCK]) (by simp [is_bad_block])
  rw [h]
  constructor
  · have hn : PAGE_SIZE - List.length [(0x12 : Nat)] = 2047 := by decide
    rw [hn]
  · simp only [List.length_append, List.length_replicate, List.length_cons,
      List.length_nil]
    decide

/-- C6 amended: on the happy path, the bytes strobed to the chip are
exactly the payload followed by `0xFF` padding — up to
`pageSize + spareSize` (2112) for `write_full_page`, but only up to
`pageSize` (2048) for `write_page`. -/
theorem C6_padding_amended (bad : Finset Nat) (s1 s2 p1 p2 : Nat) (d1 d2 : List Nat)
    (h1 : d1.length ≤ PAGE_SIZE + SPARE_SIZE)
    (hp1 : p1 < TOTAL_BLOCKS * PAGES_PER_BLOCK)
    (hb1 : is_bad_block bad (p1 / PAGES_PER_BLOCK) = false)
    (h2 : d2.length ≤ PAGE_SIZE)
    (hp2 : p2 < TOTAL_BLOCKS * PAGES_PER_BLOCK)
    (hb2 : is_bad_block bad (p2 / PAGES_PER_BLOCK) = false) :
    dataOutBytes (write_full_page bad s1 p1 d1).2.1 =
      d1 ++ List.replicate (PAGE_SIZE + SPARE_SIZE - d1.length) 0xFF ∧
    dataOutBytes (write_page bad s2 p2 d2).2.1 =
      d2 ++ List.replicate (PAGE_SIZE - d2.length) 0xFF :=
  ⟨dataOutBytes_write_full_page bad s1 p1 d1 h1 hp1 hb1,
    dataOutBytes_write_page bad s2 p2 d2 h2 hp2 hb2⟩

/-- C6 witness: the amended padding facts for a 2-byte payload on page 0. -/
theorem C6_padding_amended_witness :
    dataOutBytes (write_full_page ∅ 0 0 [1, 2]).2.1 =
      [1, 2] ++ List.replicate (PAGE_SIZE + SPARE_SIZE - 2) 0xFF ∧
    dataOutBytes (write_page ∅ 0 0 [1, 2]).2.1 =
      [1, 2] ++ List.replicate (PAGE_SIZE - 2) 0xFF := by
  have h := C6_padding_amended ∅ 0 0 0 0 [1, 2] [1, 2]
    (by norm_num [PAGE_SIZE, SPARE_SIZE]) (by norm_num [TOTAL_BLOCKS, PAGES_PER_BLOCK])
    (by simp [is_bad_block]) (by norm_num [PAGE_SIZE])
    (by norm_num [TOTAL_BLOCKS, PAGES_PER_BLOCK]) (by simp [is_bad_block])
  simpa using h

/-- C7: when the post-read status byte has the FAIL bit (bit 0) set,
`read_page` returns a fabricated payload of exactly `len` bytes all equal
to `0xFF`; in `read_page_two_plane`, each plane whose status byte has
bit 0 set likewise yields `len` bytes of `0xFF`. -/
theorem C7_uncorrectable_returns_all_ff (bad : Finset Nat) (s s1 s2 : Nat)
    (f f1 f2 : Nat → Nat) (p p1 p2 len : Nat)
    (hp : p < TOTAL_BLOCKS * PAGES_PER_BLOCK)
    (hb : is_bad_block bad (p / PAGES_PER_BLOCK) = false)
    (hs : s &&& 0x01 ≠ 0)
    (hq1 : p1 < TOTAL_BLOCKS * PAGES_PER_BLOCK)
    (hq2 : p2 < TOTAL_BLOCKS * PAGES_PER_BLOCK)
    (hpl : planeBit (p1 / PAGES_PER_BLOCK) ≠ planeBit (p2 / PAGES_PER_BLOCK))
    (hoff : p1 % PAGES_PER_BLOCK = p2 % PAGES_PER_BLOCK)
    (hbb1 : is_bad_block bad (p1 / PAGES_PER_BLOCK) = false)
    (hbb2 : is_bad_block bad (p2 / PAGES_PER_BLOCK) = false) :
    (read_page bad s f p len).1 = .ok (List.replicate len 0xFF) ∧
    (∃ d1 d2, (read_page_two_plane bad s1 s2 f1 f2 p1 p2 len).1 = .ok (d1, d2) ∧
      (s1 &&& 0x01 ≠ 0 → d1 = List.replicate len 0xFF) ∧
      (s2 &&& 0x01 ≠ 0 → d2 = List.replicate len 0xFF)) := by
  constructor
  · simp only [read_page]
    rw [if_neg (validate_page_true p hp), if_neg (by simp [hb]),
      if_pos (check_read_status_of_fail s hs)]
  · simp only [read_page_two_plane]
    rw [if_neg (validate_page_true p1 hq1), if_neg (validate_page_true p2 hq2),
      if_neg hpl, if_neg (not_not_intro hoff), if_neg (by simp [hbb1, hbb2])]
    refine ⟨_, _, rfl, fun hf1 => ?_, fun hf2 => ?_⟩
    · rw [if_pos (check_read_status_of_fail s1 hf1)]
    · rw [if_pos (check_read_status_of_fail s2 hf2)]

/-- C7 witness: pages 0 and 4096 (blocks 0 and 64, differing plane bits),
all status bytes `0x01`: both reads fabricate all-`0xFF` payloads. -/
theorem C7_uncorrectable_returns_all_ff_witness :
    (read_page ∅ 1 (fun _ => 0xAB) 0 4).1 = .ok (List.replicate 4 0xFF) ∧
    (∃ d1 d2, (read_page_two_plane ∅ 1 1 (fun _ => 0xAB) (fun _ => 0xCD) 0 (64 * 64) 4).1 =
      .ok (d1, d2) ∧
      ((1 : Nat) &&& 0x01 ≠ 0 → d1 = List.replicate 4 0xFF) ∧
      ((1 : Nat) &&& 0x01 ≠ 0 → d2 = List.replicate 4 0xFF)) :=
  C7_uncorrectable_returns_all_ff ∅ 1 1 1 (fun _ => 0xAB) (fun _ => 0xAB) (fun _ => 0xCD)
    0 0 (64 * 64) 4 (by decide) (by decide) (by decide) (by decide) (by decide)
    (by decide) (by decide) (by decide) (by decide)

/-- C8 counterexample: block 7 not in the table, chip status `0x01` (FAIL)
on every attempt, `MAX_RETRIES = 5`: after the attempts are exhausted
block 7 IS in the table, but the surfaced final error is the
bad-block-access error — not the operation-failed error the claim states
(only the first attempt reaches the chip; the block is promoted to bad
right then, so attempts 2–5 are refused before any bus activity). -/
theorem C8_retry_promotion_cex :
    (erase_block_with_retries (∅ : Finset Nat) 0x01 (7 * 64) 5).1 =
      .error (.badBlockAccess 7) ∧
    (erase_block_with_retries (∅ : Finset Nat) 0x01 (7 * 64) 5).1 ≠
      .error .operationFailed ∧
    7 ∈ (erase_block_with_retries (∅ : Finset Nat) 0x01 (7 * 64) 5).2 := by
  refine ⟨by decide, by decide, by decide⟩

/-- C8 amended: under 5 attempts with the chip reporting FAIL whenever
asked, a block not previously in the table ends up in the bad-block
table, and the surfaced final error is the bad-block-access error (the
first attempt fails with the operation-failed status and promotes the
block; the remaining attempts are rejected as bad-block accesses). -/
theorem C8_retry_promotion_amended (bad : Finset Nat) (s b : Nat)
    (hb : b < TOTAL_BLOCKS) (hnb : is_bad_block bad b = false) (hs : s &&& 0x01 ≠ 0) :
    (erase_block_with_retries bad s (b * PAGES_PER_BLOCK) 5).1 =
      .error (.badBlockAccess b) ∧
    b ∈ (erase_block_with_retries bad s (b * PAGES_PER_BLOCK) 5).2 := by
  have h1 := erase_block_fail bad s b hb hnb hs
  have hmem : is_bad_block (mark_bad_block bad b) b = true := by
    simp [is_bad_block, mark_bad_block]
  have h2 := retries_bad_block (mark_bad_block bad b) s b hb hmem 3
  have h5 : erase_block_with_retries bad s (b * PAGES_PER_BLOCK) 5 =
      (.error (.badBlockAccess b), mark_bad_block bad b) := by
    show erase_block_with_retries bad s (b * PAGES_PER_BLOCK) (Nat.succ 4) = _
    rw [erase_block_with_retries.eq_2, h1]
    exact h2
  rw [h5]
  exact ⟨rfl, by simp [mark_bad_block]⟩

/-- C8 amended witness: the amended behaviour at block 7, status `0x01`. -/
theorem C8_retry_promotion_amended_witness :
    (erase_block_with_retries (∅ : Finset Nat) 0x01 (7 * PAGES_PER_BLOCK) 5).1 =
      .error (.badBlockAccess 7) ∧
    7 ∈ (erase_block_with_retries (∅ : Finset Nat) 0x01 (7 * PAGES_PER_BLOCK) 5).2 :=
  C8_retry_promotion_amended ∅ 0x01 7 (by decide) (by decide) (by decide)

end NandWork
